import Mathlib

/-!
Shallow embedding of the Malaysia-Site-Suitability-Dashboard enrichment
pipeline (src/scripts/enrich-geojson.js) and runtime transformer
(src/services/dataTransformer.ts).

JavaScript semantics are modelled explicitly:
numbers are rationals (exact arithmetic stands in for IEEE doubles on the
small decimal values these claims exercise), `parseInt`/`parseFloat`
return `Option` with `none` playing the role of `NaN` (decimal subset:
no hex prefix, no exponent, no Infinity — none of the inputs considered
here use those forms), and the `x || y` operator on strings and numbers
is modelled by the `jsOr`-family, where the empty string and 0 are falsy.
-/

set_option maxRecDepth 20000

unseal Rat.mul Rat.inv Rat.add Rat.sub Rat.ofScientific

/-- JavaScript `s1 || s2` for strings: the empty string is falsy. -/
def jsOr (s d : String) : String :=
  if s = "" then d else s

/-- JavaScript `o || d` where `o` is a possibly-absent string property:
`undefined` and the empty string are falsy. -/
def jsOrO (o : Option String) (d : String) : String :=
  match o with
  | some s => jsOr s d
  | none => d

/-- JavaScript `o || d` where `o` is a possibly-absent numeric property:
`undefined` and 0 are falsy. -/
def jsOrQ (o : Option ℚ) (d : ℚ) : ℚ :=
  match o with
  | some q => if q = 0 then d else q
  | none => d

/-- Numeric value of a list of decimal digit characters. -/
def digitsVal (ds : List Char) : ℕ :=
  ds.foldl (fun a c => a * 10 + (c.toNat - 48)) 0

/-- Longest leading run of decimal digits, as a number; `none` when the
run is empty (the `NaN` case of `parseInt`). -/
def leadNat (cs : List Char) : Option ℕ :=
  let ds := cs.takeWhile Char.isDigit
  if ds = [] then none else some (digitsVal ds)

/-- JavaScript `parseInt(s)` (decimal subset): skip leading whitespace,
optional sign, longest digit run; `none` models `NaN`. -/
def jsParseInt (s : String) : Option ℤ :=
  let cs := s.data.dropWhile Char.isWhitespace
  match cs with
  | '-' :: rest => (leadNat rest).map (fun n => -(n : ℤ))
  | '+' :: rest => (leadNat rest).map (fun n => (n : ℤ))
  | _ => (leadNat cs).map (fun n => (n : ℤ))

/-- JavaScript `parseFloat(s)` (decimal subset): skip leading whitespace,
optional sign, digits, optional dot and fraction digits; `none` models
`NaN`. -/
def jsParseFloat (s : String) : Option ℚ :=
  let cs := s.data.dropWhile Char.isWhitespace
  let signed : ℚ × List Char :=
    match cs with
    | '-' :: rest => (-1, rest)
    | '+' :: rest => (1, rest)
    | _ => (1, cs)
  let intPart := signed.2.takeWhile Char.isDigit
  let rest2 := signed.2.dropWhile Char.isDigit
  let fracPart :=
    match rest2 with
    | '.' :: r => r.takeWhile Char.isDigit
    | _ => []
  if intPart = [] ∧ fracPart = [] then none
  else some (signed.1 * ((digitsVal intPart : ℚ) +
    (digitsVal fracPart : ℚ) / (10 : ℚ) ^ fracPart.length))

/-- JavaScript `Math.round`: half-up rounding, halves go toward plus
infinity. -/
def jsRound (q : ℚ) : ℤ :=
  ⌊q + 1 / 2⌋

/-- JavaScript `a > b` on two `parseInt` results: any comparison against
`NaN` is false. -/
def optGt (a b : Option ℤ) : Bool :=
  match a, b with
  | some x, some y => x > y
  | _, _ => false

/-- JavaScript `String.prototype.trim`. -/
def jsTrim (s : String) : String :=
  String.mk (((s.data.dropWhile Char.isWhitespace).reverse.dropWhile
    Char.isWhitespace).reverse)

/-- JavaScript `String.prototype.startsWith`. -/
def strStarts (s p : String) : Bool :=
  p.data.isPrefixOf s.data

/-- JavaScript `String.prototype.split('\n')`; splits a char list on a
delimiter, keeping empty segments. -/
def splitCharsOn (delim : Char) (cs : List Char) : List (List Char) :=
  cs.foldr
    (fun c acc =>
      if c = delim then [] :: acc
      else
        match acc with
        | a :: rest => (c :: a) :: rest
        | [] => [[c]])
    [[]]

/-- Split a string into lines, as JavaScript `content.split('\n')`. -/
def splitLines (s : String) : List String :=
  (splitCharsOn '\n' s.data).map String.mk

/-- Remove every comma, as `s.replace(/,/g, '')`. -/
def removeCommas (s : String) : String :=
  String.mk (s.data.filter (fun c => c ≠ ','))

/-- A parsed CSV row: column name to string value, in header order
(`Row.get` reads the last binding, as later assignments to a JavaScript
object win). A missing column reads as the empty string; every use in
the source distinguishes values only by falsiness, for which `undefined`
and `''` agree. -/
abbrev Row := List (String × String)

/-- Read a field of a row (absent fields read as the empty string). -/
def Row.get (r : Row) (k : String) : String :=
  match r.reverse.lookup k with
  | some v => v
  | none => ""

/-- Character loop of the quote-aware field splitter in `parseCSV`
(src/scripts/enrich-geojson.js lines 77-92): quotes toggle, unquoted
commas separate, every separated value is trimmed, and the final value
is pushed only when nonempty. -/
def splitCSVChars : List Char → Bool → String → List String → List String
  | [], _, cur, acc => if cur = "" then acc else acc ++ [jsTrim cur]
  | c :: rest, inQuotes, cur, acc =>
    if c = '"' then splitCSVChars rest (!inQuotes) cur acc
    else if c = ',' then
      if inQuotes then splitCSVChars rest inQuotes (cur.push c) acc
      else splitCSVChars rest inQuotes "" (acc ++ [jsTrim cur])
    else splitCSVChars rest inQuotes (cur.push c) acc

/-- Split one CSV line into trimmed field values. -/
def splitCSVLine (line : String) : List String :=
  splitCSVChars line.data false "" []

/-- Build a row object from headers and values:
`row[header] = values[index] || ''` (surplus values are ignored, missing
values read as the empty string). -/
def buildRow (headers values : List String) : Row :=
  headers.enum.map (fun p => (p.2, values.getD p.1 ""))

/-- The retention test of the data-row loop
(src/scripts/enrich-geojson.js line 95):
`values.length >= headers.length && values[0] && values[0] !== 'state'`. -/
def keepValues (headers values : List String) : Bool :=
  decide (headers.length ≤ values.length) &&
    values.getD 0 "" ≠ "" && values.getD 0 "" ≠ "state"

/-- The data-row loop of `parseCSV`
(src/scripts/enrich-geojson.js lines 73-102): skip blank lines and
repeated header markers, split each line, keep rows passing
`keepValues`, and map them over the headers. -/
def rowLoop (headers : List String) : List String → List Row
  | [] => []
  | line :: rest =>
    if jsTrim line = "" then rowLoop headers rest
    else if strStarts line "state,district" then rowLoop headers rest
    else
      let values := splitCSVLine line
      if keepValues headers values then
        buildRow headers values :: rowLoop headers rest
      else rowLoop headers rest

/-- Line filter applied before any parsing
(src/scripts/enrich-geojson.js line 48). -/
def keepLine (l : String) : Bool :=
  jsTrim l ≠ "" && !(strStarts l ",,,,")

/-- `parseCSV` (src/scripts/enrich-geojson.js lines 46-105): split into
lines, drop blank and `,,,,`-style lines, parse the first line as the
header, and run the data-row loop on the rest. -/
def parseCSV (content : String) : List Row :=
  let lines := (splitLines content).filter keepLine
  match lines with
  | [] => []
  | headerLine :: rest => rowLoop (splitCSVLine headerLine) rest

/-- Association lookup (first binding wins; maps built by `updateA` have
at most one binding per key). -/
def lookupA {α : Type} (m : List (String × α)) (k : String) : Option α :=
  m.lookup k

/-- JavaScript object assignment `m[k] = v`: replace in place when the
key exists, append otherwise. -/
def updateA {α : Type} (m : List (String × α)) (k : String) (v : α) :
    List (String × α) :=
  if (m.lookup k).isSome then
    m.map (fun q => cond (q.1 == k) (k, v) q)
  else m ++ [(k, v)]

/-- One step of `getLatestData` (src/scripts/enrich-geojson.js lines
113-121): skip rows with a falsy key; otherwise replace the stored row
only when the candidate's parsed year is strictly greater (a `NaN` year
on either side makes the comparison false). -/
def latestStep (jk : String) (m : List (String × Row)) (row : Row) :
    List (String × Row) :=
  let key := row.get jk
  if key = "" then m
  else
    match m.lookup key with
    | none => updateA m key row
    | some best =>
      if optGt (jsParseInt (jsOr (row.get "year") "0"))
          (jsParseInt (jsOr (best.get "year") "0")) then
        updateA m key row
      else m

/-- `getLatestData` (src/scripts/enrich-geojson.js lines 110-124). -/
def getLatestData (csvData : List Row) (jk : String) :
    List (String × Row) :=
  csvData.foldl (latestStep jk) []

/-- One step of the income-map construction
(src/scripts/enrich-geojson.js lines 169-186): district-level rows write
unconditionally, state-level rows write only when the stored value is
falsy (absent or 0); rows with falsy area or income, unparsable income,
or income not greater than 0 are skipped. -/
def incomeStep (m : List (String × ℤ)) (row : Row) : List (String × ℤ) :=
  let areaType := jsTrim (row.get "area_type")
  let area := jsTrim (row.get "area")
  let incomeMean := jsOr (row.get "income_mean") (jsOr (row.get "income_avg") "")
  if area = "" then m
  else if incomeMean = "" then m
  else
    match jsParseFloat incomeMean with
    | none => m
    | some inc =>
      if inc > 0 then
        if areaType = "district" then updateA m area (jsRound inc)
        else if areaType = "state" then
          match m.lookup area with
          | none => updateA m area (jsRound inc)
          | some v => if v = 0 then updateA m area (jsRound inc) else m
        else m
      else m

/-- The income map built from the HIES rows
(src/scripts/enrich-geojson.js lines 164-191). -/
def buildIncomeData (rows : List Row) : List (String × ℤ) :=
  rows.foldl incomeStep []

/-- The three boundary types handled by the pipeline. -/
inductive BoundaryType
  | district
  | parliament
  | dun
deriving DecidableEq

/-- The source properties of a boundary feature that the enrichment
writer reads (src/scripts/enrich-geojson.js lines 200-277). Codes and
names are strings, metric properties are numbers; an `Option` field
models presence on the JavaScript object. -/
structure SrcProps where
  code_state_district : Option String := none
  code_parlimen : Option String := none
  code_state_dun : Option String := none
  code_dun : Option String := none
  code : Option String := none
  idProp : Option String := none
  district : Option String := none
  parlimen : Option String := none
  dun : Option String := none
  name : Option String := none
  state : Option String := none
  competitors : Option ℚ := none
  public_services : Option ℚ := none
  site_suitability_score : Option ℚ := none
  night_lights : Option ℚ := none
deriving DecidableEq

/-- The named output properties written by the enrichment writer. -/
structure EnrichedProps where
  id : String
  name : String
  population : ℚ
  avg_income : ℚ
  competitors : ℚ
  public_services : ℚ
  site_suitability_score : ℚ
  night_lights : ℚ
  hasCensusData : Bool
deriving DecidableEq

/-- Key resolution (src/scripts/enrich-geojson.js lines 204-213):
boundary-type-specific ordered candidate chain; the empty string stands
for an unresolved key. -/
def resolveJoinKey (bt : BoundaryType) (p : SrcProps) : String :=
  match bt with
  | .district => jsOrO p.code_state_district (jsOrO p.code "")
  | .parliament => jsOrO p.code_parlimen (jsOrO p.code "")
  | .dun => jsOrO p.code_state_dun (jsOrO p.code_dun (jsOrO p.code ""))

/-- `parseInt(demoData.population_total || demoData.population or '0') || 0`
(src/scripts/enrich-geojson.js line 224). -/
def popOf (d : Row) : ℤ :=
  (jsParseInt (jsOr (d.get "population_total") (jsOr (d.get "population") "0"))).getD 0

/-- `parseFloat((demoData.area_km2 || '1').replace(/,/g, '')) || 1`
(src/scripts/enrich-geojson.js line 226). -/
def areaOf (d : Row) : ℚ :=
  match jsParseFloat (removeCommas (jsOr (d.get "area_km2") "1")) with
  | none => 1
  | some q => if q = 0 then 1 else q

/-- `density = pop / area` (src/scripts/enrich-geojson.js line 227). -/
def densityOf (d : Row) : ℚ :=
  (popOf d : ℚ) / areaOf d

/-- `Math.min(Math.round((density / 500) * 50), 100)`
(src/scripts/enrich-geojson.js line 230). -/
def calcNightLights (d : Row) : ℤ :=
  min (jsRound (densityOf d / 500 * 50)) 100

/-- `Math.min(Math.round((density / 1000) * 50), 100)`
(src/scripts/enrich-geojson.js line 233). -/
def calcScore (d : Row) : ℤ :=
  min (jsRound (densityOf d / 1000 * 50)) 100

/-- `parseInt(demoData.population_total || '0') || 0`, the population
read again for the competitors / public-services fallbacks
(src/scripts/enrich-geojson.js lines 266-267). -/
def pop2Of (d : Row) : ℤ :=
  (jsParseInt (jsOr (d.get "population_total") "0")).getD 0

/-- Truthiness of a stored income value looked up by key:
`incomeData[k]` is truthy when present and nonzero. -/
def truthyIncome (m : List (String × ℤ)) (k : String) : Bool :=
  match lookupA m k with
  | some v => v ≠ 0
  | none => false

/-- The `avg_income` IIFE (src/scripts/enrich-geojson.js lines 246-263):
census `income_avg` first; for districts, the income map keyed by
district name, then by state name; else 0. -/
def avgIncomeOf (bt : BoundaryType) (incomeData : List (String × ℤ))
    (d : Row) (p : SrcProps) : ℤ :=
  if d.get "income_avg" ≠ "" then
    jsRound ((jsParseFloat (d.get "income_avg")).getD 0)
  else if bt = .district then
    let districtName := jsOrO p.district (jsOrO p.name "")
    if districtName ≠ "" ∧ truthyIncome incomeData districtName then
      (lookupA incomeData districtName).getD 0
    else if jsOrO p.state "" ≠ "" ∧ truthyIncome incomeData (jsOrO p.state "") then
      (lookupA incomeData (jsOrO p.state "")).getD 0
    else 0
  else 0

/-- The `id` candidate chain, common to both branches
(src/scripts/enrich-geojson.js lines 241 and 284). -/
def idOf (p : SrcProps) : String :=
  jsOrO p.code_state_district (jsOrO p.code_parlimen
    (jsOrO p.code_state_dun (jsOrO p.code_dun (jsOrO p.idProp ""))))

/-- The `name` candidate chain, common to both branches
(src/scripts/enrich-geojson.js lines 242 and 285). -/
def nameOf (p : SrcProps) : String :=
  jsOrO p.district (jsOrO p.parlimen (jsOrO p.dun (jsOrO p.name "Unknown")))

/-- The per-feature body of `enrichGeoJSON`
(src/scripts/enrich-geojson.js lines 200-298): resolve the join key;
when `joinKey && latestData[joinKey]`, write demographic and derived
properties with `hasCensusData: true`; otherwise write all-zero
properties with `hasCensusData: false`. -/
def enrichFeature (bt : BoundaryType) (latest : List (String × Row))
    (incomeData : List (String × ℤ)) (p : SrcProps) : EnrichedProps :=
  let joinKey := resolveJoinKey bt p
  match (if joinKey = "" then none else lookupA latest joinKey) with
  | some d =>
    { id := idOf p
      name := nameOf p
      population := (popOf d : ℚ)
      avg_income := (avgIncomeOf bt incomeData d p : ℚ)
      competitors := jsOrQ p.competitors ((⌊(pop2Of d : ℚ) / 5000⌋ : ℤ) : ℚ)
      public_services := jsOrQ p.public_services ((⌊(pop2Of d : ℚ) / 10000⌋ : ℤ) : ℚ)
      site_suitability_score := jsOrQ p.site_suitability_score ((calcScore d : ℤ) : ℚ)
      night_lights := jsOrQ p.night_lights ((calcNightLights d : ℤ) : ℚ)
      hasCensusData := true }
  | none =>
    { id := idOf p
      name := nameOf p
      population := 0
      avg_income := 0
      competitors := 0
      public_services := 0
      site_suitability_score := 0
      night_lights := 0
      hasCensusData := false }

/-- A JSON-style JavaScript value stored in a feature's property bag
(src/services/dataTransformer.ts works on untyped `props`). -/
inductive JSVal
  | str (s : String)
  | num (q : ℚ)
  | boolv (b : Bool)
  | null
deriving DecidableEq

/-- JavaScript truthiness of a property value (`Boolean(v)`). -/
def JSVal.truthy : JSVal → Bool
  | .str s => s ≠ ""
  | .num q => q ≠ 0
  | .boolv b => b
  | .null => false

/-- An untyped property bag; `none` on lookup models `undefined`. -/
abbrev TProps := List (String × JSVal)

/-- Read a property (the last binding wins, as later object assignments
do in JavaScript). -/
def TProps.get (p : TProps) (k : String) : Option JSVal :=
  p.reverse.lookup k

/-- The `getValue` helper (src/services/dataTransformer.ts lines 46-56):
first candidate key whose value is neither `undefined` nor `null`, else
the default. -/
def getValueL (props : TProps) (keys : List String) (d : JSVal) : JSVal :=
  match keys with
  | [] => d
  | k :: rest =>
    match props.get k with
    | some v => if v = .null then getValueL props rest d else v
    | none => getValueL props rest d

/-- The `getNumeric` helper (src/services/dataTransformer.ts lines
59-63): string values go through `parseFloat` with the default on `NaN`;
numbers pass through; booleans pass `isNaN` and numerically coerce to
1 or 0; an empty key is falsy and yields the default. -/
def getNumeric (props : TProps) (key : String) (d : ℚ) : ℚ :=
  if key = "" then d
  else
    match getValueL props [key] (.num d) with
    | .str s =>
      match jsParseFloat s with
      | some q => q
      | none => d
    | .num q => q
    | .boolv b => if b then 1 else 0
    | .null => d

/-- `PropertyMapping` (src/services/dataTransformer.ts lines 9-21). The
identity fields may be a single key or a candidate list; a singleton
list models the single-string form. -/
structure PropertyMapping where
  id : Option (List String) := none
  name : Option (List String) := none
  population : Option String := none
  avg_income : Option String := none
  competitors : Option String := none
  public_services : Option String := none
  site_suitability_score : Option String := none
  night_lights : Option String := none
deriving DecidableEq

/-- `mapping.id || defaultKeys`: a present list (even empty, as an empty
array is truthy) wins over the default chain. -/
def mapKeys (o : Option (List String)) (d : List String) : List String :=
  match o with
  | some l => l
  | none => d

/-- `DistrictProperties` (src/types.ts lines 4-14); `id` and `name` keep
whatever property value `getValue` returned. -/
structure DistrictProperties where
  id : JSVal
  name : JSVal
  population : ℚ
  avg_income : ℚ
  competitors : ℚ
  public_services : ℚ
  site_suitability_score : ℚ
  night_lights : ℚ
  hasCensusData : Bool
deriving DecidableEq

/-- The `hasCensusData` closure (src/services/dataTransformer.ts lines
66-76): an explicitly present flag (including `null`) is coerced with
`Boolean`; otherwise the heuristic "population > 0 or avg_income > 0"
over the mapped numeric fields with default 0. -/
def hasCensusDataOf (props : TProps) (m : PropertyMapping) : Bool :=
  match props.get "hasCensusData" with
  | some v => v.truthy
  | none =>
    let population := getNumeric props (jsOrO m.population "population") 0
    let avgIncome := getNumeric props (jsOrO m.avg_income "avg_income") 0
    decide (population > 0) || decide (avgIncome > 0)

/-- The transformed property record built by `transformFeature`
(src/services/dataTransformer.ts lines 79-89). -/
def transformProps (props : TProps) (m : PropertyMapping) :
    DistrictProperties :=
  { id := getValueL props (mapKeys m.id ["id", "ID", "district_id", "code"]) (.str "")
    name := getValueL props (mapKeys m.name ["name", "NAME", "district_name", "label"]) (.str "Unknown")
    population := getNumeric props (jsOrO m.population "population") 0
    avg_income := getNumeric props (jsOrO m.avg_income "avg_income") 0
    competitors := getNumeric props (jsOrO m.competitors "competitors") 0
    public_services := getNumeric props (jsOrO m.public_services "public_services") 0
    site_suitability_score := getNumeric props (jsOrO m.site_suitability_score "site_suitability_score") 0
    night_lights := getNumeric props (jsOrO m.night_lights "night_lights") 0
    hasCensusData := hasCensusDataOf props m }

/-- GeoJSON geometry, with coordinates kept so that geometry identity is
meaningful; `other` carries the type name of an unsupported geometry. -/
inductive Geometry
  | polygon (rings : List (List (ℚ × ℚ)))
  | multiPolygon (polys : List (List (List (ℚ × ℚ))))
  | other (typeName : String)
deriving DecidableEq

/-- Whether the geometry passes the Polygon / MultiPolygon check
(src/services/dataTransformer.ts line 92). -/
def Geometry.supported : Geometry → Bool
  | .polygon _ => true
  | .multiPolygon _ => true
  | .other _ => false

/-- The type-name string used in the error message. -/
def Geometry.typeName : Geometry → String
  | .polygon _ => "Polygon"
  | .multiPolygon _ => "MultiPolygon"
  | .other t => t

/-- An input feature of the runtime transformer. -/
structure InFeature where
  geometry : Geometry
  properties : TProps
deriving DecidableEq

/-- An output feature of the runtime transformer. -/
structure OutFeature where
  geometry : Geometry
  properties : DistrictProperties
deriving DecidableEq

/-- `transformFeature` (src/services/dataTransformer.ts lines 39-101):
build the transformed properties, then throw on an unsupported geometry
type, else return the feature with the same geometry and the replaced
properties. -/
def transformFeature (f : InFeature) (m : PropertyMapping) :
    Except String OutFeature :=
  let transformedProps := transformProps f.properties m
  match f.geometry with
  | .polygon r => .ok ⟨.polygon r, transformedProps⟩
  | .multiPolygon r => .ok ⟨.multiPolygon r, transformedProps⟩
  | .other t =>
    .error ("Unsupported geometry type: " ++ t ++ ". Expected Polygon or MultiPolygon.")

/-- `data.features.map(feature => transformFeature(feature, mapping))`
with JavaScript exception propagation: the first throw aborts the whole
map. -/
def transformAll (l : List InFeature) (m : PropertyMapping) :
    Except String (List OutFeature) :=
  match l with
  | [] => .ok []
  | f :: rest =>
    match transformFeature f m with
    | .error e => .error e
    | .ok g =>
      match transformAll rest m with
      | .error e => .error e
      | .ok gs => .ok (g :: gs)

/-- A feature collection; `ftype` stands for the members preserved by
the `{...data}` spread. -/
structure FeatureCollection where
  ftype : String
  features : List InFeature
deriving DecidableEq

/-- The transformed feature collection. -/
structure OutFeatureCollection where
  ftype : String
  features : List OutFeature
deriving DecidableEq

/-- `transformToDistrictFeatures` (src/services/dataTransformer.ts lines
26-34): spread the collection, replacing `features` by the per-feature
transform. -/
def transformToDistrictFeatures (data : FeatureCollection)
    (m : PropertyMapping) : Except String OutFeatureCollection :=
  match transformAll data.features m with
  | .error e => .error e
  | .ok fs => .ok ⟨data.ftype, fs⟩

/-! Lemmas about the JavaScript-object association maps. -/

theorem lookup_mapUpdate_self {α : Type} (k : String) (v : α) :
    ∀ m : List (String × α), (m.lookup k).isSome →
      (m.map (fun q => cond (q.1 == k) (k, v) q)).lookup k = some v := by
  intro m
  induction m with
  | nil => simp
  | cons hd t ih =>
    obtain ⟨x, y⟩ := hd
    intro hs
    by_cases h : x = k
    · subst h
      simp [List.lookup]
    · have hxk : (x == k) = false := by simp [beq_iff_eq]; exact h
      have hkx : (k == x) = false := by
        simp [beq_iff_eq]; exact fun he => h he.symm
      simp only [List.map, List.lookup, hxk, cond_false, hkx] at hs ⊢
      exact ih hs

theorem lookup_appendSingle_self {α : Type} (k : String) (v : α) :
    ∀ m : List (String × α), m.lookup k = none →
      (m ++ [(k, v)]).lookup k = some v := by
  intro m
  induction m with
  | nil => simp [List.lookup]
  | cons hd t ih =>
    obtain ⟨x, y⟩ := hd
    intro hs
    by_cases h : k = x
    · simp [List.lookup, h, beq_iff_eq] at hs
    · have hkx : (k == x) = false := by simp [beq_iff_eq]; exact h
      simp only [List.lookup, hkx] at hs
      simp only [List.cons_append, List.lookup, hkx]
      exact ih hs

theorem lookup_mapUpdate_ne {α : Type} (k a : String) (v : α) (hne : a ≠ k) :
    ∀ m : List (String × α),
      (m.map (fun q => cond (q.1 == k) (k, v) q)).lookup a = m.lookup a := by
  intro m
  have hak : (a == k) = false := by simp [beq_iff_eq]; exact hne
  induction m with
  | nil => simp
  | cons hd t ih =>
    obtain ⟨x, y⟩ := hd
    by_cases h : x = k
    · subst h
      simp only [List.map, List.lookup, beq_self_eq_true, cond_true, hak]
      exact ih
    · have hxk : (x == k) = false := by simp [beq_iff_eq]; exact h
      by_cases hax : a = x
      · subst hax
        simp [List.lookup, hxk]
      · have haxf : (a == x) = false := by simp [beq_iff_eq]; exact hax
        simp only [List.map, List.lookup, hxk, cond_false, haxf]
        exact ih

theorem lookup_appendSingle_ne {α : Type} (k a : String) (v : α) (hne : a ≠ k) :
    ∀ m : List (String × α), (m ++ [(k, v)]).lookup a = m.lookup a := by
  intro m
  have hak : (a == k) = false := by simp [beq_iff_eq]; exact hne
  induction m with
  | nil => simp [List.lookup, hak]
  | cons hd t ih =>
    obtain ⟨x, y⟩ := hd
    by_cases hax : a = x
    · subst hax
      simp [List.lookup]
    · have haxf : (a == x) = false := by simp [beq_iff_eq]; exact hax
      simp only [List.cons_append, List.lookup, haxf]
      exact ih

theorem lookupA_updateA_self {α : Type} (m : List (String × α)) (k : String) (v : α) :
    lookupA (updateA m k v) k = some v := by
  unfold lookupA updateA
  by_cases h : (m.lookup k).isSome
  · simp only [if_pos h]
    exact lookup_mapUpdate_self k v m h
  · simp only [if_neg h]
    exact lookup_appendSingle_self k v m (by
      cases hl : m.lookup k with
      | none => rfl
      | some w => rw [hl] at h; simp at h)

theorem lookupA_updateA_ne {α : Type} (m : List (String × α)) (k a : String) (v : α)
    (hne : a ≠ k) : lookupA (updateA m k v) a = lookupA m a := by
  unfold lookupA updateA
  by_cases h : (m.lookup k).isSome
  · simp only [if_pos h]
    exact lookup_mapUpdate_ne k a v hne m
  · simp only [if_neg h]
    exact lookup_appendSingle_ne k a v hne m

/-- C1: in the enrichment writer, the output `hasCensusData` is false
exactly when the feature's resolved join key is empty or has no entry in
the deduplicated tabular data, and in that case all six numeric output
fields are exactly 0. -/
theorem enrich_hasCensusData_iff_matched (bt : BoundaryType)
    (latest : List (String × Row)) (income : List (String × ℤ)) (p : SrcProps) :
    ((enrichFeature bt latest income p).hasCensusData = false ↔
      (resolveJoinKey bt p = "" ∨ lookupA latest (resolveJoinKey bt p) = none))
    ∧ ((enrichFeature bt latest income p).hasCensusData = false →
      (enrichFeature bt latest income p).population = 0 ∧
      (enrichFeature bt latest income p).avg_income = 0 ∧
      (enrichFeature bt latest income p).competitors = 0 ∧
      (enrichFeature bt latest income p).public_services = 0 ∧
      (enrichFeature bt latest income p).site_suitability_score = 0 ∧
      (enrichFeature bt latest income p).night_lights = 0) := by
  unfold enrichFeature
  by_cases h : resolveJoinKey bt p = ""
  · simp [h]
  · simp only [if_neg h]
    cases hl : lookupA latest (resolveJoinKey bt p) with
    | none => simp [h, hl]
    | some d => simp [h, hl]

/-- C1 witness: a feature with no resolvable key is zeroed and flagged. -/
theorem enrich_hasCensusData_iff_matched_w :
    (enrichFeature .district [] [] {}).hasCensusData = false ∧
    (enrichFeature .district [] [] {}).population = 0 := by
  have h := enrich_hasCensusData_iff_matched .district [] [] {}
  have hfalse := h.1.mpr (Or.inl rfl)
  exact ⟨hfalse, (h.2 hfalse).1⟩

/-- C2 counterexample: a matched feature carrying a pre-existing
`site_suitability_score` of 0 does not keep it — 0 is falsy, so the
density-derived value (here 100) overwrites it. -/
theorem enrich_preexisting_zero_score_overwritten :
    (enrichFeature .district
        [("A", [("population_total", "100000"), ("area_km2", "1")])] []
        { code_state_district := some "A",
          site_suitability_score := some 0 }).site_suitability_score = 100 ∧
    (SrcProps.site_suitability_score
      { code_state_district := some "A", site_suitability_score := some 0 }) = some 0 := by
  exact ⟨by decide, rfl⟩

/-- C2 (amended): for a matched feature, a pre-existing nonzero value of
`competitors`, `public_services`, `site_suitability_score` or
`night_lights` is written unchanged; a pre-existing 0 is falsy and is
replaced by the computed value. -/
theorem enrich_preexisting_nonzero_kept (bt : BoundaryType)
    (latest : List (String × Row)) (income : List (String × ℤ)) (p : SrcProps)
    (h : resolveJoinKey bt p ≠ "")
    (hm : (lookupA latest (resolveJoinKey bt p)).isSome) :
    (∀ v : ℚ, v ≠ 0 → p.competitors = some v →
      (enrichFeature bt latest income p).competitors = v)
    ∧ (∀ v : ℚ, v ≠ 0 → p.public_services = some v →
      (enrichFeature bt latest income p).public_services = v)
    ∧ (∀ v : ℚ, v ≠ 0 → p.site_suitability_score = some v →
      (enrichFeature bt latest income p).site_suitability_score = v)
    ∧ (∀ v : ℚ, v ≠ 0 → p.night_lights = some v →
      (enrichFeature bt latest income p).night_lights = v) := by
  obtain ⟨d, hd⟩ := Option.isSome_iff_exists.mp hm
  unfold enrichFeature
  simp only [if_neg h, hd]
  refine ⟨?_, ?_, ?_, ?_⟩ <;> intro v hv hp <;> simp [jsOrQ, hp, hv]

/-- C2 witness: a matched feature with a pre-existing score of 77 keeps
77 although the computed density-based score is 100. -/
theorem enrich_preexisting_nonzero_kept_w :
    (enrichFeature .district
      [("A", [("population_total", "100000"), ("area_km2", "1")])] []
      { code_state_district := some "A",
        site_suitability_score := some 77 }).site_suitability_score = 77 :=
  (enrich_preexisting_nonzero_kept .district
      [("A", [("population_total", "100000"), ("area_km2", "1")])] []
      { code_state_district := some "A", site_suitability_score := some 77 }
      (by decide) (by decide)).2.2.1 77 (by norm_num) rfl

/-- The year rule exactly as the claim words it (for comparison with the
code): the parsed year of a row, where an unparsable or missing year
counts as 0. The code instead leaves an unparsable year as `NaN`, which
never compares greater and is never compared greater than. -/
def claimedYearValue (s : String) : ℤ :=
  (jsParseInt s).getD 0

/-- C3 counterexample: with a first row whose year is unparsable
("abc") and a second row with year "2020" under the same key, the code
keeps the first row — `2020 > parseInt("abc")` is a comparison against
`NaN` and is false — although the claim's rule (unparsable counts as 0)
would retain the 2020 row as the maximum. -/
theorem getLatest_unparsable_year_kept :
    lookupA (getLatestData [[("k", "A"), ("year", "abc")],
        [("k", "A"), ("year", "2020")]] "k") "A"
      = some [("k", "A"), ("year", "abc")]
    ∧ claimedYearValue "abc" < claimedYearValue "2020" := by
  exact ⟨by decide, by decide⟩

/-- C3 (amended): for two rows with the same nonempty key whose year
fields both parse to numbers, the deduplicator keeps exactly one row for
the key; the second row replaces the first only on a strictly greater
year, so the later-year row wins in either order and the first row wins
ties. An unparsable year is `NaN`, not 0: any strict comparison
involving it is false and the first-encountered row is kept. -/
theorem getLatest_strict_year_selection (jk a : String) (r1 r2 : Row)
    (ha : a ≠ "") (h1 : r1.get jk = a) (h2 : r2.get jk = a) (y1 y2 : ℤ)
    (hy1 : jsParseInt (jsOr (r1.get "year") "0") = some y1)
    (hy2 : jsParseInt (jsOr (r2.get "year") "0") = some y2) :
    (getLatestData [r1, r2] jk).length = 1
    ∧ (y1 < y2 → lookupA (getLatestData [r1, r2] jk) a = some r2)
    ∧ (y2 ≤ y1 → lookupA (getLatestData [r1, r2] jk) a = some r1) := by
  unfold getLatestData
  simp only [List.foldl_cons, List.foldl_nil]
  have e1 : latestStep jk [] r1 = [(a, r1)] := by
    unfold latestStep updateA
    simp [h1, ha, List.lookup]
  rw [e1]
  have el : (([(a, r1)] : List (String × Row)).lookup a) = some r1 := by
    simp [List.lookup]
  have e2 : latestStep jk [(a, r1)] r2 =
      if optGt (jsParseInt (jsOr (r2.get "year") "0"))
          (jsParseInt (jsOr (r1.get "year") "0")) = true then
        updateA [(a, r1)] a r2
      else [(a, r1)] := by
    unfold latestStep
    simp [h2, el, ha]
  rw [e2, hy1, hy2]
  have eu : updateA [(a, r1)] a r2 = [(a, r2)] := by
    unfold updateA
    simp [List.lookup]
  simp only [optGt]
  by_cases hlt : y1 < y2
  · have : (decide (y2 > y1)) = true := by simpa using hlt
    simp only [this, if_pos rfl, eu]
    refine ⟨rfl, fun _ => ?_, fun hle => ?_⟩
    · simp [lookupA, List.lookup]
    · exact absurd hlt (not_lt.mpr hle)
  · have : (decide (y2 > y1)) = false := by simpa using hlt
    simp only [this]
    refine ⟨rfl, fun hlt2 => absurd hlt2 hlt, fun _ => ?_⟩
    simp [lookupA, List.lookup]

/-- C3 witness: same-key rows with years 2010 then 2020 — the 2020 row
is retained. -/
theorem getLatest_strict_year_selection_w :
    lookupA (getLatestData [[("k", "A"), ("year", "2010")],
        [("k", "A"), ("year", "2020")]] "k") "A"
      = some [("k", "A"), ("year", "2020")] :=
  (getLatest_strict_year_selection "k" "A"
      [("k", "A"), ("year", "2010")] [("k", "A"), ("year", "2020")]
      (by decide) (by decide) (by decide) 2010 2020
      (by decide) (by decide)).2.1 (by decide)

/-- Rounding a nonnegative rational never goes below 0. -/
theorem jsRound_nonneg (q : ℚ) (h : 0 ≤ q) : 0 ≤ jsRound q := by
  unfold jsRound
  exact Int.le_floor.mpr (by push_cast; linarith)

/-- C4 counterexample: the computed metrics are not clamped below: a
matched record with a negative parsed population gives a negative
density, and `night_lights` comes out as -10000, far outside 0..100 —
the code only applies `Math.min(…, 100)`. -/
theorem calc_night_lights_negative :
    (enrichFeature .district
        [("A", [("population_total", "-100000"), ("area_km2", "1")])] []
        { code_state_district := some "A" }).night_lights = -10000 ∧
    ((-10000 : ℚ) < 0) := by
  exact ⟨by decide, by norm_num⟩

/-- C4 (amended): for a matched feature without pre-existing values, the
computed metrics are `min(round((density / 500) * 50), 100)` and
`min(round((density / 1000) * 50), 100)` — clamped only from above —
and they lie within 0..100 whenever the density is nonnegative. -/
theorem calc_metrics_clamped (bt : BoundaryType)
    (latest : List (String × Row)) (income : List (String × ℤ))
    (p : SrcProps) (d : Row)
    (hk : resolveJoinKey bt p ≠ "")
    (hm : lookupA latest (resolveJoinKey bt p) = some d)
    (hn : p.night_lights = none) (hs : p.site_suitability_score = none)
    (hd : 0 ≤ densityOf d) :
    (enrichFeature bt latest income p).night_lights
        = ((min (jsRound (densityOf d / 500 * 50)) 100 : ℤ) : ℚ)
    ∧ (enrichFeature bt latest income p).site_suitability_score
        = ((min (jsRound (densityOf d / 1000 * 50)) 100 : ℤ) : ℚ)
    ∧ 0 ≤ calcNightLights d ∧ calcNightLights d ≤ 100
    ∧ 0 ≤ calcScore d ∧ calcScore d ≤ 100 := by
  have h500 : (0 : ℚ) ≤ densityOf d / 500 * 50 := by positivity
  have h1000 : (0 : ℚ) ≤ densityOf d / 1000 * 50 := by positivity
  refine ⟨?_, ?_, ?_, ?_, ?_, ?_⟩
  · unfold enrichFeature
    simp [if_neg hk, hm, hn, jsOrQ, calcNightLights]
  · unfold enrichFeature
    simp [if_neg hk, hm, hs, jsOrQ, calcScore]
  · exact le_min (jsRound_nonneg _ h500) (by norm_num)
  · exact min_le_right _ _
  · exact le_min (jsRound_nonneg _ h1000) (by norm_num)
  · exact min_le_right _ _

/-- C4 witness: the spec's own example — population 100000 over area
"9,062" — stays in range and both metrics compute to 1. -/
theorem calc_metrics_clamped_w :
    (enrichFeature .district
        [("A", [("population_total", "100000"), ("area_km2", "9,062")])] []
        { code_state_district := some "A" }).night_lights
      = ((min (jsRound (densityOf [("population_total", "100000"), ("area_km2", "9,062")] / 500 * 50)) 100 : ℤ) : ℚ)
    ∧ (enrichFeature .district
        [("A", [("population_total", "100000"), ("area_km2", "9,062")])] []
        { code_state_district := some "A" }).site_suitability_score
      = ((min (jsRound (densityOf [("population_total", "100000"), ("area_km2", "9,062")] / 1000 * 50)) 100 : ℤ) : ℚ)
    ∧ 0 ≤ calcNightLights [("population_total", "100000"), ("area_km2", "9,062")]
    ∧ calcNightLights [("population_total", "100000"), ("area_km2", "9,062")] ≤ 100
    ∧ 0 ≤ calcScore [("population_total", "100000"), ("area_km2", "9,062")]
    ∧ calcScore [("population_total", "100000"), ("area_km2", "9,062")] ≤ 100 :=
  calc_metrics_clamped .district
    [("A", [("population_total", "100000"), ("area_km2", "9,062")])] []
    { code_state_district := some "A" }
    [("population_total", "100000"), ("area_km2", "9,062")]
    (by decide) (by decide) rfl rfl (by decide)

/-- C5 counterexample: a negative `area_km2` of "-2" is truthy after
parsing, so the "|| 1" default does not apply — the area divisor is -2,
not a positive number, refuting "always strictly positive". -/
theorem area_negative_not_floored :
    areaOf [("area_km2", "-2")] = -2 ∧ ¬(0 < areaOf [("area_km2", "-2")]) := by
  refine ⟨by decide, ?_⟩
  rw [(by decide : areaOf [("area_km2", "-2")] = -2)]
  norm_num

/-- C5 (amended): the area divisor is never 0 — a missing or unparsable
`area_km2` (after comma removal, so "9,062" parses to 9062) and a parsed
value of exactly 0 all default to 1 — but a negative parsed area is used
as-is, so the divisor is nonzero rather than strictly positive. -/
theorem area_default_nonzero (d : Row) :
    areaOf d ≠ 0
    ∧ (jsParseFloat (removeCommas (jsOr (d.get "area_km2") "1")) = none →
        areaOf d = 1)
    ∧ (∀ q : ℚ, jsParseFloat (removeCommas (jsOr (d.get "area_km2") "1")) = some q →
        q ≠ 0 → areaOf d = q)
    ∧ (∀ q : ℚ, jsParseFloat (removeCommas (jsOr (d.get "area_km2") "1")) = some q →
        q = 0 → areaOf d = 1)
    ∧ areaOf [("area_km2", "9,062")] = 9062 := by
  refine ⟨?_, ?_, ?_, ?_, by decide⟩
  · unfold areaOf
    cases h : jsParseFloat (removeCommas (jsOr (d.get "area_km2") "1")) with
    | none => simp
    | some q => by_cases hq : q = 0 <;> simp [hq]
  · intro h
    unfold areaOf
    rw [h]
  · intro q h hq
    unfold areaOf
    rw [h]
    simp [hq]
  · intro q h hq
    unfold areaOf
    rw [h]
    simp [hq]

/-- C5 witness: an unparsable area defaults to 1. -/
theorem area_default_nonzero_w :
    areaOf [("area_km2", "abc")] = 1 :=
  (area_default_nonzero [("area_km2", "abc")]).2.1 (by decide)

/-- A nonzero income value stored for an area is preserved by any income
row that is not an applied district-level row for that same area: the
state-level branch requires a falsy stored value before writing. -/
theorem incomeStep_preserves (m : List (String × ℤ)) (r : Row) (a : String) (v : ℤ)
    (hv : lookupA m a = some v) (hv0 : v ≠ 0)
    (hr : jsTrim (r.get "area") = a → jsTrim (r.get "area_type") ≠ "district") :
    lookupA (incomeStep m r) a = some v := by
  unfold incomeStep
  dsimp only
  split
  · exact hv
  split
  · exact hv
  split
  · exact hv
  next inc hinc =>
    split
    · split
      · next ht =>
        by_cases hae : jsTrim (r.get "area") = a
        · exact absurd ht (hr hae)
        · rw [lookupA_updateA_ne _ _ _ _ (fun he => hae he.symm)]
          exact hv
      · split
        · split
          · next hl =>
            by_cases hae : jsTrim (r.get "area") = a
            · rw [hae] at hl
              have hcontra : lookupA m a = none := hl
              rw [hv] at hcontra
              exact absurd hcontra (by simp)
            · rw [lookupA_updateA_ne _ _ _ _ (fun he => hae he.symm)]
              exact hv
          · next w hw =>
            split
            · next hw0 =>
              by_cases hae : jsTrim (r.get "area") = a
              · rw [hae] at hw
                have hcontra : lookupA m a = some w := hw
                rw [hv] at hcontra
                injection hcontra with hwv
                exact absurd hw0 (by rw [← hwv]; exact hv0)
              · rw [lookupA_updateA_ne _ _ _ _ (fun he => hae he.symm)]
                exact hv
            · exact hv
        · exact hv
    · exact hv

/-- An applied district-level income row overwrites the stored value for
its area unconditionally. -/
theorem incomeStep_district (m : List (String × ℤ)) (r : Row) (a : String) (q : ℚ)
    (ha : jsTrim (r.get "area") = a) (ha0 : a ≠ "")
    (ht : jsTrim (r.get "area_type") = "district")
    (hq : jsParseFloat (jsOr (r.get "income_mean") (jsOr (r.get "income_avg") "")) = some q)
    (hq0 : 0 < q) :
    incomeStep m r = updateA m a (jsRound q) := by
  unfold incomeStep
  dsimp only
  have hne : jsOr (r.get "income_mean") (jsOr (r.get "income_avg") "") ≠ "" := by
    intro hcontra
    have hnone : jsParseFloat "" = none := by decide
    rw [hcontra, hnone] at hq
    exact Option.noConfusion hq
  rw [ha, ht, if_neg ha0, if_neg hne, hq]
  simp [hq0]

/-- C6 (amended): once a district-level income row for an area has been
applied with a rounded value that is nonzero, no later state-level row
overwrites it, regardless of what came before — so with both a
district-level and a state-level entry for the same area, the map keeps
the district-level figure whenever it rounds to a nonzero value. A
district value that rounds to 0 is falsy and remains overwritable. -/
theorem income_district_precedence (pre post : List Row) (dr : Row) (a : String) (q : ℚ)
    (ha : jsTrim (dr.get "area") = a) (ha0 : a ≠ "")
    (ht : jsTrim (dr.get "area_type") = "district")
    (hq : jsParseFloat (jsOr (dr.get "income_mean") (jsOr (dr.get "income_avg") "")) = some q)
    (hq0 : 0 < q) (hr : jsRound q ≠ 0)
    (hpost : ∀ r ∈ post, jsTrim (r.get "area") = a →
      jsTrim (r.get "area_type") ≠ "district") :
    lookupA (buildIncomeData (pre ++ dr :: post)) a = some (jsRound q) := by
  unfold buildIncomeData
  rw [List.foldl_append, List.foldl_cons]
  have hstart : lookupA (incomeStep (pre.foldl incomeStep []) dr) a
      = some (jsRound q) := by
    rw [incomeStep_district _ dr a q ha ha0 ht hq hq0]
    exact lookupA_updateA_self _ a _
  have main : ∀ (l : List Row) (m : List (String × ℤ)),
      (∀ r ∈ l, jsTrim (r.get "area") = a → jsTrim (r.get "area_type") ≠ "district") →
      lookupA m a = some (jsRound q) →
      lookupA (l.foldl incomeStep m) a = some (jsRound q) := by
    intro l
    induction l with
    | nil => exact fun m _ hm => hm
    | cons r t ih =>
      intro m hl hm
      simp only [List.foldl_cons]
      exact ih (incomeStep m r)
        (fun s hs hsa => hl s (List.mem_cons_of_mem r hs) hsa)
        (incomeStep_preserves m r a (jsRound q) hm hr (hl r (List.mem_cons_self r t)))
  exact main post _ hpost hstart

/-- C6 counterexample: a district-level income of 0.4 passes the
"income > 0" gate but rounds to 0; the stored 0 is falsy, so a later
state-level row for the same area overwrites it — the joined value is
the state-level 5000, not the district-level figure, refuting "once set,
never overwritten by a state-level estimate". -/
theorem income_state_overwrites_rounded_zero :
    lookupA (buildIncomeData
        [[("area_type", "district"), ("area", "X"), ("income_mean", "0.4")],
         [("area_type", "state"), ("area", "X"), ("income_mean", "5000")]]) "X"
      = some 5000
    ∧ jsRound ((jsParseFloat "0.4").getD 0) = 0 := by
  exact ⟨by decide, by decide⟩

/-- C6 witness: a district-level entry of 5500 for area "X", read
between two state-level entries of 3000, wins in both orders. -/
theorem income_district_precedence_w :
    lookupA (buildIncomeData
        [[("area_type", "state"), ("area", "X"), ("income_mean", "3000")],
         [("area_type", "district"), ("area", "X"), ("income_mean", "5500")],
         [("area_type", "state"), ("area", "X"), ("income_mean", "3000")]]) "X"
      = some (jsRound 5500) :=
  income_district_precedence
    [[("area_type", "state"), ("area", "X"), ("income_mean", "3000")]]
    [[("area_type", "state"), ("area", "X"), ("income_mean", "3000")]]
    [("area_type", "district"), ("area", "X"), ("income_mean", "5500")]
    "X" 5500 (by decide) (by decide) (by decide) (by decide)
    (by decide) (by decide) (by decide)

/-- The combined retention condition of the data-row loop, assembled
from its three guards: a line is kept when it is not blank, not a
repeated `state,district` header marker, and passes `keepValues`. -/
def keepDataLine (headers : List String) (l : String) : Bool :=
  !(decide (jsTrim l = "")) && !(strStarts l "state,district")
    && keepValues headers (splitCSVLine l)

/-- Every built row binds exactly the header names, in order. -/
theorem buildRow_fst (headers values : List String) :
    (buildRow headers values).map Prod.fst = headers := by
  unfold buildRow
  rw [List.map_map]
  exact List.enum_map_snd headers

/-- C7 (amended): the data-row loop keeps exactly the lines that are
nonblank, not `state,district` markers, and whose parsed field count is
at least (not exactly) the header count with a truthy first value other
than "state"; surplus values of longer rows are ignored, dropped lines
do not stop processing, and every retained row maps exactly the
header's fields. -/
theorem rowLoop_retention (headers lines : List String) :
    rowLoop headers lines = (lines.filter (keepDataLine headers)).map
      (fun l => buildRow headers (splitCSVLine l))
    ∧ ∀ r ∈ rowLoop headers lines, r.map Prod.fst = headers := by
  have h1 : rowLoop headers lines = (lines.filter (keepDataLine headers)).map
      (fun l => buildRow headers (splitCSVLine l)) := by
    induction lines with
    | nil => rfl
    | cons l t ih =>
      unfold rowLoop
      by_cases hb : jsTrim l = ""
      · rw [if_pos hb]
        have hd : keepDataLine headers l = false := by simp [keepDataLine, hb]
        simp only [List.filter_cons, hd, Bool.false_eq_true, if_neg (by simp : ¬false = true)]
        exact ih
      · rw [if_neg hb]
        by_cases hs : strStarts l "state,district" = true
        · rw [if_pos hs]
          have hd : keepDataLine headers l = false := by simp [keepDataLine, hs]
          simp only [List.filter_cons, hd, Bool.false_eq_true, if_neg (by simp : ¬false = true)]
          exact ih
        · rw [if_neg hs]
          by_cases hk : keepValues headers (splitCSVLine l) = true
          · rw [if_pos hk]
            have hd : keepDataLine headers l = true := by
              simp [keepDataLine, hb, hs, hk]
            simp only [List.filter_cons, hd, if_true, List.map_cons]
            simp only [ih]
          · rw [if_neg hk]
            have hd : keepDataLine headers l = false := by
              simp [keepDataLine, hb, hs, hk]
            simp only [List.filter_cons, hd, Bool.false_eq_true, if_neg (by simp : ¬false = true)]
            exact ih
  refine ⟨h1, fun r hr => ?_⟩
  rw [h1] at hr
  obtain ⟨l, _, rfl⟩ := List.mem_map.mp hr
  exact buildRow_fst headers (splitCSVLine l)

/-- C7 counterexample: under header "a,b" (2 fields), the data row
"1,2,3" parses to 3 fields — a count that does not match the header's —
yet it is retained (with the surplus value ignored), because the code
tests `values.length >= headers.length`, not equality. -/
theorem parseCSV_surplus_row_retained :
    parseCSV "a,b\n1,2,3" = [[("a", "1"), ("b", "2")]]
    ∧ (splitCSVLine "1,2,3").length = 3
    ∧ (splitCSVLine "a,b").length = 2 := by
  exact ⟨by decide, by decide, by decide⟩

/-- C7 witness: a concrete run of the loop characterization. -/
theorem rowLoop_retention_w :
    rowLoop ["a", "b"] ["1,2,3"] = [[("a", "1"), ("b", "2")]]
    ∧ ([("a", "1"), ("b", "2")] : Row).map Prod.fst = ["a", "b"] :=
  ⟨(rowLoop_retention ["a", "b"] ["1,2,3"]).1.trans (by decide),
    (rowLoop_retention ["a", "b"] ["1,2,3"]).2 [("a", "1"), ("b", "2")] (by decide)⟩

/-- A successful association lookup returns a binding of the map. -/
theorem lookupA_mem {α : Type} (m : List (String × α)) (k : String) (v : α)
    (h : lookupA m k = some v) : (k, v) ∈ m := by
  unfold lookupA at h
  induction m with
  | nil => simp [List.lookup] at h
  | cons hd t ih =>
    obtain ⟨x, y⟩ := hd
    by_cases hkx : k = x
    · subst hkx
      simp only [List.lookup, beq_self_eq_true] at h
      injection h with hv
      subst hv
      exact List.mem_cons_self _ _
    · have hf : (k == x) = false := by simp [beq_iff_eq]; exact hkx
      simp only [List.lookup, hf] at h
      exact List.mem_cons_of_mem _ (ih h)

/-- The computed night-lights value is nonnegative for nonnegative
density. -/
theorem calcNightLights_nonneg (d : Row) (hd : 0 ≤ densityOf d) :
    0 ≤ calcNightLights d :=
  le_min (jsRound_nonneg _ (by positivity)) (by norm_num)

/-- The computed night-lights value is at most 100. -/
theorem calcNightLights_le (d : Row) : calcNightLights d ≤ 100 :=
  min_le_right _ _

/-- The computed suitability score is nonnegative for nonnegative
density. -/
theorem calcScore_nonneg (d : Row) (hd : 0 ≤ densityOf d) :
    0 ≤ calcScore d :=
  le_min (jsRound_nonneg _ (by positivity)) (by norm_num)

/-- The computed suitability score is at most 100. -/
theorem calcScore_le (d : Row) : calcScore d ≤ 100 :=
  min_le_right _ _

/-- A rational that is a cast of a nonnegative integer. -/
def IsNonnegInt (q : ℚ) : Prop :=
  ∃ z : ℤ, 0 ≤ z ∧ q = (z : ℚ)

/-- A pre-existing metric property that is either absent or a
nonnegative integer value. -/
def OkPre (o : Option ℚ) : Prop :=
  ∀ v : ℚ, o = some v → ∃ z : ℤ, 0 ≤ z ∧ v = (z : ℚ)

/-- The `pre || computed` merge yields a nonnegative integer when the
computed fallback is one and the pre-existing value is absent or a
nonnegative integer. -/
theorem jsOrQ_nonneg_int (o : Option ℚ) (dflt : ℤ) (hd : 0 ≤ dflt)
    (ho : OkPre o) : IsNonnegInt (jsOrQ o (dflt : ℚ)) := by
  cases o with
  | none => exact ⟨dflt, hd, rfl⟩
  | some v =>
    by_cases hv : v = 0
    · exact ⟨dflt, hd, by simp [jsOrQ, hv]⟩
    · obtain ⟨z, hz, rfl⟩ := ho v rfl
      exact ⟨z, hz, by simp [jsOrQ, hv]⟩

/-- The joined average income is nonnegative when the census income
field parses nonnegative (or is absent) and every stored income-map
value is nonnegative. -/
theorem avgIncomeOf_nonneg (bt : BoundaryType) (income : List (String × ℤ))
    (d : Row) (p : SrcProps)
    (hinc : 0 ≤ (jsParseFloat (d.get "income_avg")).getD 0)
    (hincome : ∀ kv ∈ income, 0 ≤ kv.2) :
    0 ≤ avgIncomeOf bt income d p := by
  unfold avgIncomeOf
  dsimp only
  split
  · exact jsRound_nonneg _ hinc
  · split
    · split
      · next hcond =>
        cases hl : lookupA income (jsOrO p.district (jsOrO p.name "")) with
        | none => norm_num
        | some v => simpa using hincome _ (lookupA_mem _ _ _ hl)
      · split
        · next hcond =>
          cases hl : lookupA income (jsOrO p.state "") with
          | none => norm_num
          | some v => simpa using hincome _ (lookupA_mem _ _ _ hl)
        · exact le_refl 0
    · exact le_refl 0

/-- C8 (amended): every matched feature gets `hasCensusData = true`; and
each of the six numeric fields is a nonnegative integer provided the
parsed population values, density and census income are nonnegative,
every stored income-map value is nonnegative, and any pre-existing
metric properties are nonnegative integers. Negative source values (for
example a population of "-100") flow through unchanged, so
nonnegativity is not unconditional. -/
theorem enrich_matched_nonneg_int (bt : BoundaryType)
    (latest : List (String × Row)) (income : List (String × ℤ))
    (p : SrcProps) (d : Row)
    (hk : resolveJoinKey bt p ≠ "")
    (hm : lookupA latest (resolveJoinKey bt p) = some d)
    (hpop : 0 ≤ popOf d) (hpop2 : 0 ≤ pop2Of d) (hd : 0 ≤ densityOf d)
    (hinc : 0 ≤ (jsParseFloat (d.get "income_avg")).getD 0)
    (hincome : ∀ kv ∈ income, 0 ≤ kv.2)
    (hc : OkPre p.competitors) (hps : OkPre p.public_services)
    (hss : OkPre p.site_suitability_score) (hnl : OkPre p.night_lights) :
    (enrichFeature bt latest income p).hasCensusData = true
    ∧ IsNonnegInt (enrichFeature bt latest income p).population
    ∧ IsNonnegInt (enrichFeature bt latest income p).avg_income
    ∧ IsNonnegInt (enrichFeature bt latest income p).competitors
    ∧ IsNonnegInt (enrichFeature bt latest income p).public_services
    ∧ IsNonnegInt (enrichFeature bt latest income p).site_suitability_score
    ∧ IsNonnegInt (enrichFeature bt latest income p).night_lights := by
  have hq2 : (0 : ℚ) ≤ (pop2Of d : ℚ) := by exact_mod_cast hpop2
  unfold enrichFeature
  simp only [if_neg hk, hm]
  refine ⟨by trivial, ?_, ?_, ?_, ?_, ?_, ?_⟩
  · exact ⟨popOf d, hpop, rfl⟩
  · exact ⟨avgIncomeOf bt income d p,
      avgIncomeOf_nonneg bt income d p hinc hincome, rfl⟩
  · exact jsOrQ_nonneg_int _ _ (Int.le_floor.mpr (by positivity)) hc
  · exact jsOrQ_nonneg_int _ _ (Int.le_floor.mpr (by positivity)) hps
  · exact jsOrQ_nonneg_int _ _ (calcScore_nonneg d hd) hss
  · exact jsOrQ_nonneg_int _ _ (calcNightLights_nonneg d hd) hnl

/-- C8 counterexample: a matched record whose `population_total` is
"-100" produces `population = -100` (and `competitors = -1`), so a
numeric output field of a matched feature can be negative although
`hasCensusData` is true. -/
theorem enrich_matched_negative_population :
    (enrichFeature .district [("A", [("population_total", "-100")])] []
        { code_state_district := some "A" }).hasCensusData = true
    ∧ (enrichFeature .district [("A", [("population_total", "-100")])] []
        { code_state_district := some "A" }).population < 0
    ∧ (enrichFeature .district [("A", [("population_total", "-100")])] []
        { code_state_district := some "A" }).competitors < 0 := by
  refine ⟨by decide, ?_, ?_⟩
  · rw [(by decide : (enrichFeature .district
        [("A", [("population_total", "-100")])] []
        { code_state_district := some "A" }).population = -100)]
    norm_num
  · rw [(by decide : (enrichFeature .district
        [("A", [("population_total", "-100")])] []
        { code_state_district := some "A" }).competitors = -1)]
    norm_num

/-- C8 witness: a well-formed record yields the flag and six
nonnegative integers. -/
theorem enrich_matched_nonneg_int_w :
    (enrichFeature .district
        [("A", [("population_total", "100000"), ("area_km2", "10"),
          ("income_avg", "1500")])] []
        { code_state_district := some "A" }).hasCensusData = true
    ∧ IsNonnegInt (enrichFeature .district
        [("A", [("population_total", "100000"), ("area_km2", "10"),
          ("income_avg", "1500")])] []
        { code_state_district := some "A" }).population
    ∧ IsNonnegInt (enrichFeature .district
        [("A", [("population_total", "100000"), ("area_km2", "10"),
          ("income_avg", "1500")])] []
        { code_state_district := some "A" }).avg_income
    ∧ IsNonnegInt (enrichFeature .district
        [("A", [("population_total", "100000"), ("area_km2", "10"),
          ("income_avg", "1500")])] []
        { code_state_district := some "A" }).competitors
    ∧ IsNonnegInt (enrichFeature .district
        [("A", [("population_total", "100000"), ("area_km2", "10"),
          ("income_avg", "1500")])] []
        { code_state_district := some "A" }).public_services
    ∧ IsNonnegInt (enrichFeature .district
        [("A", [("population_total", "100000"), ("area_km2", "10"),
          ("income_avg", "1500")])] []
        { code_state_district := some "A" }).site_suitability_score
    ∧ IsNonnegInt (enrichFeature .district
        [("A", [("population_total", "100000"), ("area_km2", "10"),
          ("income_avg", "1500")])] []
        { code_state_district := some "A" }).night_lights :=
  enrich_matched_nonneg_int .district
    [("A", [("population_total", "100000"), ("area_km2", "10"),
      ("income_avg", "1500")])] []
    { code_state_district := some "A" }
    [("population_total", "100000"), ("area_km2", "10"), ("income_avg", "1500")]
    (by decide) (by decide) (by decide) (by decide) (by decide)
    (by decide) (by simp)
    (fun v h => by cases h) (fun v h => by cases h)
    (fun v h => by cases h) (fun v h => by cases h)

/-- C9: in the runtime transformer, when `hasCensusData` is not present
on the source properties, the output flag equals "population > 0 or
avg_income > 0" over the mapped numeric fields with default 0; when it
is present, its boolean coercion is used as-is. -/
theorem runtime_hasCensusData_heuristic (f : InFeature) (m : PropertyMapping)
    (out : OutFeature) (h : transformFeature f m = Except.ok out) :
    (f.properties.get "hasCensusData" = none →
      (out.properties.hasCensusData = true ↔
        (0 < out.properties.population ∨ 0 < out.properties.avg_income)))
    ∧ (∀ v : JSVal, f.properties.get "hasCensusData" = some v →
        out.properties.hasCensusData = v.truthy) := by
  have hp : out.properties = transformProps f.properties m := by
    unfold transformFeature at h
    cases hg : f.geometry with
    | polygon r =>
      rw [hg] at h
      dsimp only at h
      injection h with h2
      rw [← h2]
    | multiPolygon r =>
      rw [hg] at h
      dsimp only at h
      injection h with h2
      rw [← h2]
    | other t =>
      rw [hg] at h
      dsimp only at h
      cases h
  rw [hp]
  constructor
  · intro hnone
    show hasCensusDataOf f.properties m = true ↔ _
    unfold hasCensusDataOf
    rw [hnone]
    dsimp only
    simp only [Bool.or_eq_true, decide_eq_true_iff]
    exact Iff.rfl
  · intro v hv
    show hasCensusDataOf f.properties m = v.truthy
    unfold hasCensusDataOf
    rw [hv]

/-- The per-feature map over a list of supported-geometry features
succeeds and preserves length, order and each geometry. -/
theorem transformAll_ok (m : PropertyMapping) :
    ∀ l : List InFeature, (∀ f ∈ l, f.geometry.supported = true) →
      ∃ l2 : List OutFeature, transformAll l m = Except.ok l2
        ∧ l2.length = l.length
        ∧ ∀ (i : ℕ) (h1 : i < l2.length) (h2 : i < l.length),
            (l2.get ⟨i, h1⟩).geometry = (l.get ⟨i, h2⟩).geometry := by
  intro l
  induction l with
  | nil =>
    exact fun _ => ⟨[], rfl, rfl, fun i h1 h2 => absurd h1 (by simp)⟩
  | cons f t ih =>
    intro hall
    obtain ⟨l2, hl2, hlen, hgeo⟩ := ih (fun g hg => hall g (List.mem_cons_of_mem f hg))
    have hf := hall f (List.mem_cons_self f t)
    cases hg : f.geometry with
    | polygon r =>
      have htf : transformFeature f m
          = Except.ok ⟨.polygon r, transformProps f.properties m⟩ := by
        unfold transformFeature
        rw [hg]
      refine ⟨⟨.polygon r, transformProps f.properties m⟩ :: l2, ?_, by simp [hlen], ?_⟩
      · unfold transformAll
        rw [htf, hl2]
      · intro i h1 h2
        cases i with
        | zero => simp [hg]
        | succ n =>
          simp only [List.get]
          exact hgeo n (by simpa using h1) (by simpa using h2)
    | multiPolygon r =>
      have htf : transformFeature f m
          = Except.ok ⟨.multiPolygon r, transformProps f.properties m⟩ := by
        unfold transformFeature
        rw [hg]
      refine ⟨⟨.multiPolygon r, transformProps f.properties m⟩ :: l2, ?_, by simp [hlen], ?_⟩
      · unfold transformAll
        rw [htf, hl2]
      · intro i h1 h2
        cases i with
        | zero => simp [hg]
        | succ n =>
          simp only [List.get]
          exact hgeo n (by simpa using h1) (by simpa using h2)
    | other ty =>
      rw [hg] at hf
      exact absurd hf (by simp [Geometry.supported])

/-- C10: on a collection whose features are all Polygon or MultiPolygon,
`transformToDistrictFeatures` succeeds and returns the same number of
features in the same order, each with geometry identical to its input
feature's geometry; only the properties are replaced (and the
collection's other members are spread through unchanged). -/
theorem transform_preserves_frame (data : FeatureCollection) (m : PropertyMapping)
    (h : ∀ f ∈ data.features, f.geometry.supported = true) :
    ∃ out : OutFeatureCollection,
      transformToDistrictFeatures data m = Except.ok out
      ∧ out.ftype = data.ftype
      ∧ out.features.length = data.features.length
      ∧ ∀ (i : ℕ) (h1 : i < out.features.length) (h2 : i < data.features.length),
          (out.features.get ⟨i, h1⟩).geometry
            = (data.features.get ⟨i, h2⟩).geometry := by
  obtain ⟨l2, hl2, hlen, hgeo⟩ := transformAll_ok m data.features h
  refine ⟨⟨data.ftype, l2⟩, ?_, rfl, hlen, hgeo⟩
  unfold transformToDistrictFeatures
  rw [hl2]

/-- C9 witness: a feature with population 5 and no explicit flag gets
the heuristic flag. -/
theorem runtime_hasCensusData_heuristic_w :
    (transformProps [("population", JSVal.num 5)] {}).hasCensusData = true ↔
      (0 < (transformProps [("population", JSVal.num 5)] {}).population ∨
        0 < (transformProps [("population", JSVal.num 5)] {}).avg_income) :=
  (runtime_hasCensusData_heuristic
    ⟨Geometry.polygon [], [("population", JSVal.num 5)]⟩ {}
    ⟨Geometry.polygon [], transformProps [("population", JSVal.num 5)] {}⟩
    rfl).1 rfl

/-- C10 witness: a one-polygon collection transforms with its geometry
untouched. -/
theorem transform_preserves_frame_w :
    ∃ out : OutFeatureCollection,
      transformToDistrictFeatures
          ⟨"FeatureCollection", [⟨Geometry.polygon [], []⟩]⟩ {}
        = Except.ok out
      ∧ out.ftype
        = (⟨"FeatureCollection", [⟨Geometry.polygon [], []⟩]⟩ : FeatureCollection).ftype
      ∧ out.features.length
        = (⟨"FeatureCollection", [⟨Geometry.polygon [], []⟩]⟩ : FeatureCollection).features.length
      ∧ ∀ (i : ℕ) (h1 : i < out.features.length)
          (h2 : i < (⟨"FeatureCollection", [⟨Geometry.polygon [], []⟩]⟩ : FeatureCollection).features.length),
          (out.features.get ⟨i, h1⟩).geometry
            = ((⟨"FeatureCollection", [⟨Geometry.polygon [], []⟩]⟩ : FeatureCollection).features.get ⟨i, h2⟩).geometry :=
  transform_preserves_frame
    ⟨"FeatureCollection", [⟨Geometry.polygon [], []⟩]⟩ {} (by decide)
